import Mathlib

/-!
Verification of the session/token authentication core of the XiaolinBlog backend
(`app/core/auth.py`, `app/core/token_blacklist.py`, `app/core/session.py`,
`app/core/heartbeat_manager.py`).

Modelling conventions:
* Nat is modelled in whole seconds (a `Nat` instant); `datetime.utcnow()` becomes an
  explicit `now : Nat` argument threaded through every operation.
* The shared Redis store is modelled per key family (the Python code separates the
  families by distinct key name beginnings, so they never collide): a family is a
  `List (RKey α)` of values with an absolute expiry instant.  A key is visible
  exactly while `now < expireAt`, which is Redis TTL semantics at one-second
  resolution; `SETEX k ttl v` stores `expireAt := now + ttl`.
* JWT signing is modelled by an injective tagging function `jwtSign`; `jwt.decode`
  checks the signature first and then the `exp` claim, as the `jose` library does
  (a token is expired when `exp < now`).  Exceptions raised by decoding are the
  `none` results.
* Store errors are modelled by a `failing`/`available` flag on the store: every
  Python `except` branch around a store call corresponds to the branch taken when
  that flag is set.
-/

namespace Blog

/-- One Redis key of a given family: a value plus the absolute instant at which
the key expires (set by `SETEX`). -/
structure RKey (α : Type) where
  key : String
  val : α
  expireAt : Nat
deriving DecidableEq, Repr

/-- A key is visible while the current time is before its expiry. -/
def rlive (now : Nat) (k : String) (e : RKey α) : Bool :=
  decide (e.key = k ∧ now < e.expireAt)

/-- Redis `GET`: the first visible entry for the key. -/
def rfind (l : List (RKey α)) (k : String) (now : Nat) : Option (RKey α) :=
  l.find? (rlive now k)

/-- Redis `GET`, returning the stored value. -/
def rget (l : List (RKey α)) (k : String) (now : Nat) : Option α :=
  (rfind l k now).map (fun e => e.val)

/-- Redis `TTL`: remaining seconds for a visible key, `-2` when the key is absent. -/
def rttl (l : List (RKey α)) (k : String) (now : Nat) : Int :=
  match rfind l k now with
  | some e => (e.expireAt : Int) - (now : Int)
  | none => -2

/-- Redis `SETEX`: overwrite the key (Redis keys are unique) with a fresh expiry. -/
def rsetex (l : List (RKey α)) (k : String) (v : α) (expAt : Nat) : List (RKey α) :=
  if l.any (fun e => e.key == k) then
    l.map (fun e => if e.key = k then ⟨k, v, expAt⟩ else e)
  else ⟨k, v, expAt⟩ :: l

/-- Redis `DEL`: remove the key. -/
def rdel (l : List (RKey α)) (k : String) : List (RKey α) :=
  l.filter (fun e => !(e.key == k))

/-! ## Token model (`app/core/auth.py`, creation side) -/

/-- The JWT claim set written by `create_access_token` / `create_refresh_token`:
`exp`, `sub`, `type`, `iat` and the optional `session_id`.  `session_id := some s`
models a JSON payload carrying the claim with value `s` (possibly the empty
string); `none` models an absent claim. -/
structure TokenPayload where
  exp : Nat
  sub : String
  type : String
  iat : Nat
  session_id : Option String
deriving DecidableEq, Repr

/-- Canonical serialisation of a payload (stands for the base64url JSON segment). -/
def payloadString (p : TokenPayload) : String :=
  toString p.exp ++ "|" ++ p.sub ++ "|" ++ p.type ++ "|" ++ toString p.iat ++ "|" ++
    (match p.session_id with
     | some s => "s" ++ s
     | none => "n")

/-- The HMAC signature over the payload under a secret key. -/
def jwtSign (key : String) (p : TokenPayload) : String :=
  "hmac[" ++ key ++ "][" ++ payloadString p ++ "]"

/-- A presented JWT: a payload together with a (possibly forged) signature. -/
structure Token where
  payload : TokenPayload
  sig : String
deriving DecidableEq, Repr

/-- The compact string form of the token, as handed to the blacklist. -/
def tokenString (t : Token) : String :=
  payloadString t.payload ++ "." ++ t.sig

/-- Models `TokenBlacklistManager._hash_token`: SHA-256 of the token string, modelled by
an injective tag. -/
def hashToken (token : String) : String :=
  "sha256[" ++ token ++ "]"

/-- Decimal digits of a numeric string, accumulator style. -/
def digitsToNat : List Char → Nat → Option Nat
  | [], acc => some acc
  | c :: cs, acc =>
      if c.isDigit then digitsToNat cs (acc * 10 + (c.toNat - 48))
      else none

/-- Python `int(...)` on a string: the parsed integer, or `none` for the
`ValueError` raised on a non-numeric string. -/
def pyInt (s : String) : Option Int :=
  match s.toList with
  | [] => none
  | '-' :: cs =>
      match cs with
      | [] => none
      | _ => (digitsToNat cs 0).map (fun n => -(n : Int))
  | cs => (digitsToNat cs 0).map (fun n => (n : Int))

/-- Models `AuthManager` configuration (`settings.SECRET_KEY`,
`settings.ACCESS_TOKEN_EXPIRE_MINUTES`). -/
structure AuthManager where
  secret_key : String
  access_token_expire_minutes : Nat
deriving DecidableEq, Repr

/-- Models `AuthManager.create_access_token`: claims `exp`, `sub`, `type="access"`,
`iat`, and `session_id` only when the argument is truthy (non-empty).
`expires_delta` is in seconds. -/
def create_access_token (am : AuthManager) (subject : Int) (session_id : String)
    (expires_delta : Option Nat) (now : Nat) : Token :=
  let expire : Nat :=
    match expires_delta with
    | some d => now + d
    | none => now + am.access_token_expire_minutes * 60
  let payload : TokenPayload :=
    { exp := expire
      sub := toString subject
      type := "access"
      iat := now
      session_id := if session_id = "" then none else some session_id }
  { payload := payload, sig := jwtSign am.secret_key payload }

/-! ## Revocation registry (`app/core/token_blacklist.py`) -/

/-- One `token_blacklist:{uuid}` record (the uuid only individuates the record,
so the records are kept as a list; `keyExpireAt` is the Redis expiry of the
record key set by `SETEX`). -/
structure BlacklistEntry where
  token : String
  blacklisted_at : Nat
  expires_at : Option Nat
  reason : String
  keyExpireAt : Nat
deriving DecidableEq, Repr

/-- State of `TokenBlacklistManager`: the per-revocation detail records, the
`blacklisted_tokens` membership set of token hashes with the expiry last given
to it, and a `failing` flag modelling the store raising on every call. -/
structure BlacklistStore where
  entries : List BlacklistEntry
  hashSet : List String
  setExpireAt : Nat
  failing : Bool
deriving DecidableEq, Repr

/-- Models `TokenBlacklistManager.add_token`.  Returns `True` without storing anything
when the remaining lifetime is not positive; otherwise stores a detail record
with TTL equal to the remaining lifetime, adds the token hash to the membership
set and refreshes that set's expiry.  On a store error returns `False`. -/
def add_token (st : BlacklistStore) (token : String) (expires_at : Option Nat)
    (reason : String) (now : Nat) : Bool × BlacklistStore :=
  if st.failing then (false, st)
  else
    let expire_seconds : Int :=
      match expires_at with
      | some e => (e : Int) - (now : Int)
      | none => 24 * 3600
    if expire_seconds ≤ 0 then (true, st)
    else
      let h := hashToken token
      (true,
        { st with
          entries :=
            { token := token, blacklisted_at := now, expires_at := expires_at,
              reason := reason, keyExpireAt := now + expire_seconds.toNat } :: st.entries
          hashSet := if h ∈ st.hashSet then st.hashSet else h :: st.hashSet
          setExpireAt := now + expire_seconds.toNat })

/-- Models `TokenBlacklistManager.is_blacklisted`: `SISMEMBER` on the hash set (which is
invisible once its own expiry passed); on any store error the token is reported
as blacklisted. -/
def is_blacklisted (st : BlacklistStore) (token : String) (now : Nat) : Bool :=
  if st.failing then true
  else decide (now < st.setExpireAt) && decide (hashToken token ∈ st.hashSet)

/-- Whether `cleanup_expired_tokens` removes this record at time `now`: the
record key must still be visible and its recorded `expires_at` strictly past. -/
def entryExpiredNow (now : Nat) (e : BlacklistEntry) : Bool :=
  decide (now < e.keyExpireAt) &&
    (match e.expires_at with
     | some x => decide (x < now)
     | none => false)

/-- Models `TokenBlacklistManager.cleanup_expired_tokens`: walk the visible detail
records, and for each whose `expires_at` lies in the past remove its hash from
the membership set, delete the record, and count it. -/
def cleanup_expired_tokens (st : BlacklistStore) (now : Nat) : Nat × BlacklistStore :=
  if st.failing then (0, st)
  else
    let removed := st.entries.filter (entryExpiredNow now)
    let kept := st.entries.filter (fun e => !(entryExpiredNow now e))
    (removed.length,
      { st with
        entries := kept
        hashSet := st.hashSet.filter (fun h => !(removed.any (fun e => hashToken e.token == h))) })

/-! ## Token verification (`AuthManager.verify_token`) -/

/-- The individual credential checks `verify_token` can perform. -/
inductive Check where
  | revocation
  | signature
  | expiry
  | typecheck
deriving DecidableEq, Repr

/-- Result of `verify_token`: the bare user id for a token without a truthy
`session_id` (compatibility mode) or the full payload data (enhanced mode). -/
inductive TokenData where
  | compat (user_id : String)
  | enhanced (user_id : String) (session_id : String) (exp : Nat) (iat : Nat)
deriving DecidableEq, Repr

/-- Models `AuthManager.verify_token`, instrumented with the list of checks it performs
in order.  The source consults the blacklist first, then calls `jwt.decode`
(which validates the signature and then the `exp` claim), then compares the
`type` claim; any failure returns `None`.  A payload whose `session_id` claim is
absent or empty (falsy in Python) yields the compatibility-mode result. -/
def verify_token_checks (am : AuthManager) (bl : BlacklistStore) (token : Token)
    (token_type : String) (now : Nat) : List Check × Option TokenData :=
  if is_blacklisted bl (tokenString token) now then
    ([.revocation], none)
  else if token.sig ≠ jwtSign am.secret_key token.payload then
    ([.revocation, .signature], none)
  else if token.payload.exp < now then
    ([.revocation, .signature, .expiry], none)
  else if token.payload.type ≠ token_type then
    ([.revocation, .signature, .expiry, .typecheck], none)
  else
    ([.revocation, .signature, .expiry, .typecheck],
      match token.payload.session_id with
      | some sid =>
          if sid = "" then some (.compat token.payload.sub)
          else some (.enhanced token.payload.sub sid token.payload.exp token.payload.iat)
      | none => some (.compat token.payload.sub))

/-- Models `AuthManager.verify_token`: the verification outcome. -/
def verify_token (am : AuthManager) (bl : BlacklistStore) (token : Token)
    (token_type : String) (now : Nat) : Option TokenData :=
  (verify_token_checks am bl token token_type now).2

/-! ## Session store (`app/core/session.py`) -/

/-- The JSON document stored under `enhanced_session:{session_id}`. -/
structure SessionData where
  session_id : String
  user_id : Int
  user_agent : String
  ip_address : String
  created_at : Nat
  last_activity : Nat
  expires_at : Nat
  is_active : Bool
  login_count : Nat
deriving DecidableEq, Repr

/-- State of `SessionManager`: the session documents keyed by session id, the
`user_sessions:{user_id}` secondary index sets, and whether the Redis connection
is available (`_ensure_redis_connection`). -/
structure SessionStore where
  entries : List (RKey SessionData)
  userSessions : List (Int × List String)
  available : Bool
deriving DecidableEq, Repr

/-- Models `SessionManager.get_session`: `GET` of the session document; `none` when the
connection is unavailable or the key is absent. -/
def get_session (st : SessionStore) (sid : String) (now : Nat) : Option SessionData :=
  if !st.available then none
  else rget st.entries sid now

/-- Redis `SREM` of a session id from one user's secondary index set. -/
def sremUserSession (us : List (Int × List String)) (uid : Int) (sid : String) :
    List (Int × List String) :=
  us.map (fun p => if p.1 = uid then (p.1, p.2.filter (fun s => !(s == sid))) else p)

/-- Models `SessionManager.delete_session`: drop the id from the owner's index set (when
the document is still readable), then `DEL` the document; returns whether a key
was actually deleted. -/
def delete_session (st : SessionStore) (sid : String) (now : Nat) : Bool × SessionStore :=
  if !st.available then (false, st)
  else
    let st1 :=
      match get_session st sid now with
      | some d => { st with userSessions := sremUserSession st.userSessions d.user_id sid }
      | none => st
    let existed := (rfind st1.entries sid now).isSome
    (existed, { st1 with entries := rdel st1.entries sid })

/-- Models `SessionManager.update_session_activity`: re-store the document with
`last_activity := now` under the key's current remaining TTL; `False` when the
connection is down, the session is gone, or the TTL is not positive. -/
def update_session_activity (st : SessionStore) (sid : String) (now : Nat) :
    Bool × SessionStore :=
  if !st.available then (false, st)
  else
    match get_session st sid now with
    | none => (false, st)
    | some d =>
      let d := { d with last_activity := now }
      let ttl := rttl st.entries sid now
      if 0 < ttl then
        (true, { st with entries := rsetex st.entries sid d (now + ttl.toNat) })
      else (false, st)

/-- Models `SessionManager.validate_session`: reject when the store is unavailable, the
document is missing, the session is inactive, or a truthy `user_id` argument
disagrees with the stored owner; delete and reject a session whose recorded
`expires_at` is past (expire-on-read); otherwise touch the activity time and
accept.  (The optional IP comparison in the source only logs and never rejects.) -/
def validate_session (st : SessionStore) (sid : String) (user_id : Int) (now : Nat) :
    Bool × SessionStore :=
  if !st.available then (false, st)
  else
    match get_session st sid now with
    | none => (false, st)
    | some d =>
      if !d.is_active then (false, st)
      else if user_id ≠ 0 ∧ d.user_id ≠ user_id then (false, st)
      else if d.expires_at < now then
        (false, (delete_session st sid now).2)
      else
        (true, (update_session_activity st sid now).2)

/-- Models `SessionManager.cleanup_expired_sessions`: Redis expiry does the actual
deletion; this merely counts the currently visible session keys (`KEYS` on the
session name pattern) and changes nothing. -/
def cleanup_expired_sessions (st : SessionStore) (now : Nat) : Nat :=
  if !st.available then 0
  else (st.entries.filter (fun e => decide (now < e.expireAt))).length

/-! ## Heartbeat monitor (`app/core/heartbeat_manager.py`) -/

/-- The JSON document stored under `heartbeat:session:{session_id}`. -/
structure SessionHeartbeatInfo where
  last_heartbeat : Option Nat
  heartbeat_count : Nat
  missed_count : Nat
  status : String
deriving DecidableEq, Repr

/-- State of `HeartbeatManager`: the per-session summary documents and the
`heartbeat:count:{session_id}` counters.  (The append-only per-ping audit
records and the global statistics document are not read by any of the
operations verified here.) -/
structure HeartbeatStore where
  sessionRecords : List (RKey SessionHeartbeatInfo)
  counts : List (String × Nat)
deriving DecidableEq, Repr

/-- Models `HeartbeatManager.max_missed_heartbeats` (hard-coded to 3). -/
def max_missed_heartbeats : Nat := 3

/-- Outcome of `check_session_heartbeat_status` (the fields the claims need). -/
structure HeartbeatStatus where
  status : String
  is_alive : Bool
  time_since_last : Option Int
  missed_count : Nat
deriving DecidableEq, Repr

/-- Models `HeartbeatManager.check_session_heartbeat_status`: classify by the elapsed
time since the last heartbeat against the configured interval. -/
def check_session_heartbeat_status (st : HeartbeatStore) (interval : Nat)
    (sid : String) (now : Nat) : HeartbeatStatus :=
  match rget st.sessionRecords ("session:" ++ sid) now with
  | none =>
      { status := "no_heartbeat", is_alive := false, time_since_last := none,
        missed_count := 0 }
  | some info =>
    match info.last_heartbeat with
    | none =>
        { status := "invalid_heartbeat", is_alive := false, time_since_last := none,
          missed_count := 0 }
    | some lh =>
      let elapsed : Int := (now : Int) - (lh : Int)
      if elapsed ≤ (interval : Int) then
        { status := "active", is_alive := true, time_since_last := some elapsed,
          missed_count := info.missed_count }
      else if elapsed ≤ (interval : Int) * 2 then
        { status := "warning", is_alive := true, time_since_last := some elapsed,
          missed_count := info.missed_count }
      else
        { status := "timeout", is_alive := false, time_since_last := some elapsed,
          missed_count := info.missed_count }

/-- Models `HeartbeatManager.mark_missed_heartbeat`: increment the missed counter,
re-store the document for two more intervals, and report whether the counter
reached the configured maximum; a missing document reports `False`. -/
def mark_missed_heartbeat (st : HeartbeatStore) (interval : Nat) (sid : String)
    (now : Nat) : Bool × HeartbeatStore :=
  match rget st.sessionRecords ("session:" ++ sid) now with
  | none => (false, st)
  | some info =>
    let missed := info.missed_count + 1
    let info1 := { info with missed_count := missed, status := "missed" }
    let st1 :=
      { st with sessionRecords :=
          rsetex st.sessionRecords ("session:" ++ sid) info1 (now + interval * 2) }
    (decide (max_missed_heartbeats ≤ missed), st1)

/-- Redis `INCR` on the per-session heartbeat counter. -/
def incrHeartbeatCount (counts : List (String × Nat)) (sid : String) :
    Nat × List (String × Nat) :=
  match counts.find? (fun p => p.1 == sid) with
  | some p => (p.2 + 1, counts.map (fun q => if q.1 = sid then (q.1, q.2 + 1) else q))
  | none => (1, (sid, 1) :: counts)

/-- Models `HeartbeatManager.record_heartbeat` (the session-summary part): bump the
counter and overwrite the summary with a fresh `last_heartbeat`, a zero missed
counter and status `active`, valid for two intervals. -/
def record_heartbeat (st : HeartbeatStore) (interval : Nat) (sid : String)
    (now : Nat) : HeartbeatStore :=
  let c := incrHeartbeatCount st.counts sid
  let info : SessionHeartbeatInfo :=
    { last_heartbeat := some now, heartbeat_count := c.1, missed_count := 0,
      status := "active" }
  { st with
    counts := c.2
    sessionRecords :=
      rsetex st.sessionRecords ("session:" ++ sid) info (now + interval * 2) }

/-! ## Triple verification (`AuthManager.triple_verify_authentication`) -/

/-- The slice of a user row that `user_service.get` / `is_active` consult. -/
structure UserRec where
  id : Int
  is_active : Bool
deriving DecidableEq, Repr

/-- A request after credential extraction: `_extract_jwt_token` yields the bearer
token from the authorization header or the token cookie, `_extract_session_cookie`
the session cookie value.  `none` models an absent header/cookie; an empty cookie
string is present but falsy and is rejected by the falsiness test in the source. -/
structure Request where
  jwt_token : Option Token
  session_cookie : Option String
deriving DecidableEq, Repr

/-- Models `AuthManager.triple_verify_authentication`: extraction, JWT verification,
session validation, cookie consistency, user lookup and activity touch, in the
order of the source; every failure (including the `ValueError` from `int(user_id)`
on a non-numeric subject, which the enclosing `except` turns into `None`) yields
no user.  Returns the authenticated user together with the session store as
mutated by the validation/touch side effects. -/
def triple_verify_authentication (am : AuthManager) (bl : BlacklistStore)
    (ss : SessionStore) (db : List UserRec) (req : Request) (now : Nat) :
    Option UserRec × SessionStore :=
  match req.jwt_token with
  | none => (none, ss)
  | some tok =>
    match req.session_cookie with
    | none => (none, ss)
    | some cookie =>
      if cookie = "" then (none, ss)
      else
        match verify_token am bl tok "access" now with
        | none => (none, ss)
        | some td =>
          let user_id : String :=
            match td with
            | .compat u => u
            | .enhanced u _ _ _ => u
          let jwt_session_id : String :=
            match td with
            | .compat _ => cookie
            | .enhanced _ s _ _ => s
          match pyInt user_id with
          | none => (none, ss)
          | some uid =>
            let v := validate_session ss jwt_session_id uid now
            if !v.1 then (none, v.2)
            else if cookie ≠ jwt_session_id then (none, v.2)
            else
              match db.find? (fun u => u.id == uid) with
              | none => (none, v.2)
              | some user =>
                if !user.is_active then (none, v.2)
                else (some user, (update_session_activity v.2 jwt_session_id now).2)

/-! ## Generic facts about the keyed store -/

/-- A successful `rfind` returns a member entry for the requested key that is
still visible. -/
theorem rfind_spec {α : Type} {l : List (RKey α)} {k : String} {now : Nat}
    {e : RKey α} (h : rfind l k now = some e) :
    e ∈ l ∧ e.key = k ∧ now < e.expireAt := by
  unfold rfind at h
  have hm := List.mem_of_find?_eq_some h
  have hp := List.find?_some h
  simp only [rlive, decide_eq_true_eq] at hp
  exact ⟨hm, hp.1, hp.2⟩

/-- A successful `rget` shows the key is present in the family. -/
theorem rget_mem {α : Type} {l : List (RKey α)} {k : String} {now : Nat}
    {v : α} (h : rget l k now = some v) :
    ∃ e ∈ l, e.key = k := by
  unfold rget at h
  rcases he : rfind l k now with _ | e
  · rw [he] at h; cases h
  · exact ⟨e, (rfind_spec he).1, (rfind_spec he).2.1⟩

/-- An entry whose key differs is never a hit. -/
theorem rlive_ne {α : Type} (now : Nat) (q : String) (e : RKey α)
    (h : e.key ≠ q) : rlive now q e = false := by
  simp only [rlive, decide_eq_false_iff_not]
  exact fun h2 => h h2.1

/-- Overwriting a key that occurs in the family makes the fresh entry the hit
for that key. -/
theorem find_map_setex_self {α : Type} (l : List (RKey α)) (k : String) (v : α)
    (expAt now : Nat) (hlive : now < expAt) (hmem : ∃ e ∈ l, e.key = k) :
    (l.map (fun e => if e.key = k then (⟨k, v, expAt⟩ : RKey α) else e)).find?
      (rlive now k) = some ⟨k, v, expAt⟩ := by
  induction l with
  | nil => rcases hmem with ⟨e, he, _⟩; cases he
  | cons a l ih =>
    by_cases hk : a.key = k
    · have hnew : rlive now k (⟨k, v, expAt⟩ : RKey α) = true := by
        simp [rlive, hlive]
      simp [List.map_cons, hk, List.find?_cons_of_pos _ hnew]
    · have h2 : rlive now k a = false := rlive_ne now k a hk
      rcases hmem with ⟨e, he, hek⟩
      rcases List.mem_cons.mp he with rfl | hel
      · exact absurd hek hk
      · simp only [List.map_cons, if_neg hk]
        rw [List.find?_cons_of_neg _ (by simp [h2])]
        exact ih ⟨e, hel, hek⟩

/-- Overwriting one key does not change the hit for any other key. -/
theorem find_map_setex_other {α : Type} (l : List (RKey α)) (k : String) (v : α)
    (expAt : Nat) (q : String) (now : Nat) (hq : q ≠ k) :
    (l.map (fun e => if e.key = k then (⟨k, v, expAt⟩ : RKey α) else e)).find?
      (rlive now q) = l.find? (rlive now q) := by
  induction l with
  | nil => rfl
  | cons a l ih =>
    by_cases hk : a.key = k
    · have h1 : rlive now q (⟨k, v, expAt⟩ : RKey α) = false :=
        rlive_ne now q _ (fun h => hq h.symm)
      have h2 : rlive now q a = false :=
        rlive_ne now q a (fun h => hq (h.symm.trans hk))
      simp only [List.map_cons, if_pos hk]
      rw [List.find?_cons_of_neg _ (by simp [h1]),
        List.find?_cons_of_neg _ (by simp [h2])]
      exact ih
    · simp only [List.map_cons, if_neg hk]
      by_cases hl : rlive now q a = true
      · rw [List.find?_cons_of_pos _ hl, List.find?_cons_of_pos _ hl]
      · rw [List.find?_cons_of_neg _ (by simpa using hl),
          List.find?_cons_of_neg _ (by simpa using hl)]
        exact ih

/-- After `rsetex`, looking up the same key while the fresh expiry has not
passed yields exactly the stored entry. -/
theorem rfind_rsetex_self {α : Type} (l : List (RKey α)) (k : String) (v : α)
    (expAt now : Nat) (hlive : now < expAt) :
    rfind (rsetex l k v expAt) k now = some ⟨k, v, expAt⟩ := by
  have hnew : rlive now k (⟨k, v, expAt⟩ : RKey α) = true := by
    simp [rlive, hlive]
  unfold rsetex rfind
  by_cases hany : l.any (fun e => e.key == k) = true
  · rw [if_pos hany]
    have hmem : ∃ e ∈ l, e.key = k := by
      rcases List.any_eq_true.mp hany with ⟨e, he, hk⟩
      exact ⟨e, he, by simpa using hk⟩
    exact find_map_setex_self l k v expAt now hlive hmem
  · rw [if_neg hany]
    exact List.find?_cons_of_pos _ hnew

/-- After `rsetex`, the stored value is readable at the same key. -/
theorem rget_rsetex_self {α : Type} (l : List (RKey α)) (k : String) (v : α)
    (expAt now : Nat) (hlive : now < expAt) :
    rget (rsetex l k v expAt) k now = some v := by
  unfold rget
  rw [rfind_rsetex_self l k v expAt now hlive]
  rfl

/-- Lemma: `rsetex` leaves every other key of the family untouched. -/
theorem rfind_rsetex_other {α : Type} (l : List (RKey α)) (k : String) (v : α)
    (expAt : Nat) (q : String) (now : Nat) (hq : q ≠ k) :
    rfind (rsetex l k v expAt) q now = rfind l q now := by
  unfold rsetex rfind
  by_cases hany : l.any (fun e => e.key == k) = true
  · rw [if_pos hany]
    exact find_map_setex_other l k v expAt q now hq
  · rw [if_neg hany]
    have h1 : rlive now q (⟨k, v, expAt⟩ : RKey α) = false :=
      rlive_ne now q _ (fun h => hq h.symm)
    rw [List.find?_cons_of_neg _ (by simp [h1])]

/-! ## C2 — order of the verification checks -/

/-- C2 (amended): `verify_token` always consults the revocation registry FIRST,
and then performs signature, expiry and type checks in that order (each of the
four traces is a truncation of `[revocation, signature, expiry, typecheck]`).
In particular the revocation lookup happens before the signature has been
validated, contrary to the order the claim states. -/
theorem verify_token_checks_order (am : AuthManager) (bl : BlacklistStore)
    (token : Token) (token_type : String) (now : Nat) :
    (verify_token_checks am bl token token_type now).1.head? = some Check.revocation ∧
    ((verify_token_checks am bl token token_type now).1 = [Check.revocation] ∨
     (verify_token_checks am bl token token_type now).1 =
       [Check.revocation, Check.signature] ∨
     (verify_token_checks am bl token token_type now).1 =
       [Check.revocation, Check.signature, Check.expiry] ∨
     (verify_token_checks am bl token token_type now).1 =
       [Check.revocation, Check.signature, Check.expiry, Check.typecheck]) := by
  unfold verify_token_checks
  split_ifs <;> simp

/-- Concrete material for refuting the claimed check order: a token with a
forged signature whose hash is on the denylist. -/
def c2am : AuthManager := { secret_key := "k", access_token_expire_minutes := 30 }

def c2payload : TokenPayload :=
  { exp := 100, sub := "7", type := "access", iat := 0, session_id := some "A" }

def c2tok : Token := { payload := c2payload, sig := "forged" }

def c2bl : BlacklistStore :=
  { entries := [], hashSet := [hashToken (tokenString c2tok)], setExpireAt := 1000,
    failing := false }

/-- C2 (counterexample): on a blacklisted token with an invalid signature the
only check `verify_token` performs is the revocation lookup — the signature is
never validated, so the claimed order (signature first, revocation last, no
revocation lookup before signature validation) is false. -/
theorem verify_token_checks_order_counterexample :
    (verify_token_checks c2am c2bl c2tok "access" 10).1 = [Check.revocation] ∧
    Check.signature ∉ (verify_token_checks c2am c2bl c2tok "access" 10).1 ∧
    c2tok.sig ≠ jwtSign c2am.secret_key c2tok.payload := by
  refine ⟨by decide, by decide, by decide⟩

/-! ## C3 — revocation precedence -/

/-- C3: for any token whose `exp` lies in the future, after
`add_token(token, expires_at = exp)` every verification strictly before `exp`
returns no claims, regardless of the token's signature being valid and its
lifetime not being over: the denylist is consulted first and wins. -/
theorem add_token_revokes (am : AuthManager) (bl : BlacklistStore) (tok : Token)
    (reason : String) (t0 t : Nat)
    (hf : bl.failing = false)
    (hfut : t0 < tok.payload.exp)
    (ht0 : t0 ≤ t)
    (ht : t < tok.payload.exp) :
    verify_token am
      (add_token bl (tokenString tok) (some tok.payload.exp) reason t0).2
      tok "access" t = none := by
  have hpos : ¬ ((tok.payload.exp : Int) - (t0 : Int) ≤ 0) := by
    omega
  have hbl :
      is_blacklisted (add_token bl (tokenString tok) (some tok.payload.exp) reason t0).2
        (tokenString tok) t = true := by
    unfold add_token is_blacklisted
    simp only [hf, Bool.false_eq_true, if_false, if_neg hpos, Bool.and_eq_true,
      decide_eq_true_eq]
    refine ⟨by omega, ?_⟩
    split_ifs with hmem
    · exact hmem
    · exact List.mem_cons_self _ _
  unfold verify_token verify_token_checks
  rw [hbl]
  simp

/-- C3 witness material: a genuine signed token expiring at time 100. -/
def c3am : AuthManager := { secret_key := "k3", access_token_expire_minutes := 30 }

def c3payload : TokenPayload :=
  { exp := 100, sub := "9", type := "access", iat := 0, session_id := some "S" }

def c3tok : Token := { payload := c3payload, sig := jwtSign "k3" c3payload }

def c3bl : BlacklistStore :=
  { entries := [], hashSet := [], setExpireAt := 0, failing := false }

/-- C3 (witness): revoking the valid token `c3tok` at time 0 makes verification
fail at time 50, although 50 is before the token expiry 100 and the signature
is valid. -/
theorem add_token_revokes_witness :
    verify_token c3am (add_token c3bl (tokenString c3tok) (some 100) "t" 0).2
      c3tok "access" 50 = none ∧
    c3tok.sig = jwtSign c3am.secret_key c3tok.payload ∧
    ¬ (c3tok.payload.exp < 50) := by
  refine ⟨?_, by decide, by decide⟩
  exact add_token_revokes c3am c3bl c3tok "t" 0 50 rfl (by decide) (by decide) (by decide)

/-! ## C5 — issue/verify round trip -/

/-- C5: verifying a token issued for `(subject, session_id, ttl)` at any time
before the ttl elapses, with no intervening revocation, returns exactly the
enhanced-mode claims carrying that subject and session id (plus the issue-time
`exp`/`iat` bookkeeping). -/
theorem verify_create_round_trip (am : AuthManager) (bl : BlacklistStore)
    (subject : Int) (session_id : String) (ttl : Nat) (t0 t : Nat)
    (hsid : session_id ≠ "")
    (hbl : is_blacklisted bl
      (tokenString (create_access_token am subject session_id (some ttl) t0)) t = false)
    (ht : t < t0 + ttl) :
    verify_token am bl (create_access_token am subject session_id (some ttl) t0)
      "access" t =
      some (TokenData.enhanced (toString subject) session_id (t0 + ttl) t0) := by
  have hexp : ¬ (t0 + ttl < t) := by omega
  unfold verify_token verify_token_checks
  rw [hbl]
  simp [create_access_token, hsid, hexp]

/-- C5 (witness): round trip at subject 42, session id `sess`, ttl 600,
issued at time 1000 and verified at time 1500 against an empty denylist. -/
theorem verify_create_round_trip_witness :
    verify_token c3am c3bl (create_access_token c3am 42 "sess" (some 600) 1000)
      "access" 1500 =
      some (TokenData.enhanced "42" "sess" 1600 1000) := by
  have h := verify_create_round_trip c3am c3bl 42 "sess" 600 1000 1500
    (by decide) (by decide) (by decide)
  simpa using h

/-! ## C1 — cookie/token session binding -/

/-- A token whose `session_id` claim is present and truthy verifies either to a
failure or to the enhanced-mode data carrying that session id. -/
theorem verify_token_enhanced_shape (am : AuthManager) (bl : BlacklistStore)
    (tok : Token) (ty : String) (now : Nat) (A : String)
    (hA : tok.payload.session_id = some A) (hAne : A ≠ "") :
    verify_token am bl tok ty now = none ∨
    verify_token am bl tok ty now =
      some (.enhanced tok.payload.sub A tok.payload.exp tok.payload.iat) := by
  unfold verify_token verify_token_checks
  split_ifs <;> simp [hA, hAne]

/-- C1 (amended): whenever the access token carries a truthy (non-empty)
`session_id` claim `A` and the request carries a session cookie `B` with
`A ≠ B`, triple verification returns no user — if session `A` fails validation
the request dies at step 3, and otherwise the cookie-consistency check of step 4
rejects it, regardless of the token and the session each being individually
valid. -/
theorem triple_verify_session_mismatch (am : AuthManager) (bl : BlacklistStore)
    (ss : SessionStore) (db : List UserRec) (req : Request) (tok : Token)
    (A B : String) (now : Nat)
    (htok : req.jwt_token = some tok)
    (hcookie : req.session_cookie = some B)
    (hA : tok.payload.session_id = some A)
    (hAne : A ≠ "")
    (hne : B ≠ A) :
    (triple_verify_authentication am bl ss db req now).1 = none := by
  unfold triple_verify_authentication
  rw [htok, hcookie]
  dsimp only
  by_cases hB : B = ""
  · simp [hB]
  · rw [if_neg hB]
    rcases verify_token_enhanced_shape am bl tok "access" now A hA hAne with hv | hv
    · rw [hv]
    · rw [hv]
      dsimp only
      rcases hsub : pyInt tok.payload.sub with _ | uid
      · rfl
      · dsimp only
        rcases hval : (validate_session ss A uid now).1 with _ | _
        · simp [hval]
        · simp [hval, hne]

/-- Concrete material refuting the unrestricted claim: a correctly signed token
whose `session_id` claim is present but empty. -/
def c1am : AuthManager := { secret_key := "k1", access_token_expire_minutes := 30 }

def c1payload : TokenPayload :=
  { exp := 100, sub := "7", type := "access", iat := 0, session_id := some "" }

def c1tok : Token := { payload := c1payload, sig := jwtSign "k1" c1payload }

def c1bl : BlacklistStore :=
  { entries := [], hashSet := [], setExpireAt := 0, failing := false }

def c1sdata : SessionData :=
  { session_id := "B", user_id := 7, user_agent := "", ip_address := "",
    created_at := 0, last_activity := 0, expires_at := 100, is_active := true,
    login_count := 1 }

def c1ss : SessionStore :=
  { entries := [⟨"B", c1sdata, 100⟩], userSessions := [(7, ["B"])], available := true }

def c1db : List UserRec := [{ id := 7, is_active := true }]

def c1req : Request := { jwt_token := some c1tok, session_cookie := some "B" }

/-- C1 (counterexample): the token `c1tok` carries the `session_id` claim with
value `""` and the cookie carries `"B"` (so the two differ), the token is
signed, unexpired and not revoked, and session `B` is active and owned by the
token's subject — yet triple verification ACCEPTS the request: the empty claim
is falsy in Python, so the code drops into compatibility mode and adopts the
cookie's session id instead of comparing. -/
theorem triple_verify_session_mismatch_counterexample :
    c1tok.payload.session_id = some "" ∧
    c1req.session_cookie = some "B" ∧
    ("" : String) ≠ "B" ∧
    c1tok.sig = jwtSign c1am.secret_key c1tok.payload ∧
    (triple_verify_authentication c1am c1bl c1ss c1db c1req 10).1 =
      some { id := 7, is_active := true } := by
  refine ⟨by decide, by decide, by decide, by decide, by rfl⟩

/-- Concrete material for the C1 witness: a signed token bound to session `A`
presented with a cookie for session `B`. -/
def c1wpayload : TokenPayload :=
  { exp := 100, sub := "7", type := "access", iat := 0, session_id := some "A" }

def c1wtok : Token := { payload := c1wpayload, sig := jwtSign "k1" c1wpayload }

def c1wreq : Request := { jwt_token := some c1wtok, session_cookie := some "B" }

/-- C1 (witness): a request whose token names session `A` while the cookie
names session `B` is rejected. -/
theorem triple_verify_session_mismatch_witness :
    (triple_verify_authentication c1am c1bl c1ss c1db c1wreq 10).1 = none := by
  exact triple_verify_session_mismatch c1am c1bl c1ss c1db c1wreq c1wtok "A" "B" 10
    rfl rfl rfl (by decide) (by decide)

/-! ## C10 — compatibility tokens bypass the binding -/

/-- C10: a valid (signed, unexpired, non-revoked, access-typed) token carrying
NO `session_id` claim, presented with any truthy session cookie that validates
for the token's subject, authenticates successfully: the code adopts the
cookie's value as the token's session id, so the cookie-consistency check
compares the cookie with itself and can never fail. -/
theorem triple_verify_compat_bypass (am : AuthManager) (bl : BlacklistStore)
    (ss : SessionStore) (db : List UserRec) (req : Request) (tok : Token)
    (cookie : String) (uid : Int) (user : UserRec) (now : Nat)
    (htok : req.jwt_token = some tok)
    (hcookie : req.session_cookie = some cookie)
    (hc : cookie ≠ "")
    (hsid : tok.payload.session_id = none)
    (hsig : tok.sig = jwtSign am.secret_key tok.payload)
    (hexp : ¬ tok.payload.exp < now)
    (hty : tok.payload.type = "access")
    (hbl : is_blacklisted bl (tokenString tok) now = false)
    (hsub : pyInt tok.payload.sub = some uid)
    (hval : (validate_session ss cookie uid now).1 = true)
    (huser : db.find? (fun u => u.id == uid) = some user)
    (hact : user.is_active = true) :
    (triple_verify_authentication am bl ss db req now).1 = some user := by
  have hv : verify_token am bl tok "access" now = some (.compat tok.payload.sub) := by
    unfold verify_token verify_token_checks
    rw [hbl]
    simp [hsig, hexp, hty, hsid]
  unfold triple_verify_authentication
  rw [htok, hcookie]
  dsimp only
  rw [if_neg hc, hv]
  dsimp only
  rw [hsub]
  dsimp only
  rw [hval]
  simp only [Bool.not_true, Bool.false_eq_true, if_false, ne_eq, not_true_eq_false,
    if_neg (fun h : cookie ≠ cookie => h rfl)]
  rw [huser]
  simp [hact]

/-- Concrete material for the C10 witness: a legacy token without `session_id`. -/
def c10payload : TokenPayload :=
  { exp := 100, sub := "7", type := "access", iat := 0, session_id := none }

def c10tok : Token := { payload := c10payload, sig := jwtSign "k1" c10payload }

def c10req : Request := { jwt_token := some c10tok, session_cookie := some "B" }

/-- C10 (witness): the compatibility-mode bypass at a concrete request. -/
theorem triple_verify_compat_bypass_witness :
    (triple_verify_authentication c1am c1bl c1ss c1db c10req 10).1 =
      some { id := 7, is_active := true } := by
  exact triple_verify_compat_bypass c1am c1bl c1ss c1db c10req c10tok "B" 7
    { id := 7, is_active := true } 10 rfl rfl (by decide) rfl rfl (by decide) rfl
    (by rfl) (by rfl) (by rfl) (by rfl) rfl

/-! ## C4 — fail closed on store errors -/

/-- C4: every verification step resolves store trouble to rejection, never to
acceptance: a blacklist lookup error reports the token as revoked, an
unreachable session store makes `validate_session` report the session invalid,
and under either condition the triple verification as a whole returns no user
(the internal error never surfaces as an authenticated request). -/
theorem fail_closed (am : AuthManager) (bl : BlacklistStore) (ss : SessionStore)
    (db : List UserRec) (req : Request) (token sid : String) (uid : Int) (now : Nat)
    (h : bl.failing = true ∨ ss.available = false) :
    (bl.failing = true → is_blacklisted bl token now = true) ∧
    (ss.available = false → (validate_session ss sid uid now).1 = false) ∧
    (triple_verify_authentication am bl ss db req now).1 = none := by
  refine ⟨fun hf => by simp [is_blacklisted, hf],
    fun hs => by simp [validate_session, hs], ?_⟩
  rcases h with hf | hs
  · unfold triple_verify_authentication
    rcases hreq : req.jwt_token with _ | tok
    · rfl
    · rcases hck : req.session_cookie with _ | cookie
      · rfl
      · dsimp only
        by_cases hB : cookie = ""
        · simp [hB]
        · rw [if_neg hB]
          have hvt : verify_token am bl tok "access" now = none := by
            unfold verify_token verify_token_checks is_blacklisted
            simp [hf]
          rw [hvt]
  · unfold triple_verify_authentication
    rcases hreq : req.jwt_token with _ | tok
    · rfl
    · rcases hck : req.session_cookie with _ | cookie
      · rfl
      · dsimp only
        by_cases hB : cookie = ""
        · simp [hB]
        · rw [if_neg hB]
          rcases hvt : verify_token am bl tok "access" now with _ | td
          · rfl
          · rcases td with u | ⟨u, s, e, i⟩
            · dsimp only
              rcases hpi : pyInt u with _ | uid'
              · rfl
              · dsimp only
                have hval : (validate_session ss cookie uid' now).1 = false := by
                  simp [validate_session, hs]
                simp [hval]
            · dsimp only
              rcases hpi : pyInt u with _ | uid'
              · rfl
              · dsimp only
                have hval : (validate_session ss s uid' now).1 = false := by
                  simp [validate_session, hs]
                simp [hval]

/-- Concrete material for the C4 witness: a failing blacklist client. -/
def c4bl : BlacklistStore :=
  { entries := [], hashSet := [], setExpireAt := 0, failing := true }

def c4ssdown : SessionStore :=
  { entries := [], userSessions := [], available := false }

/-- C4 (witness): with a raising blacklist client every lookup reports revoked,
with an unreachable session store validation reports invalid, and triple
verification of a well-formed request yields no user. -/
theorem fail_closed_witness :
    (is_blacklisted c4bl "tok" 0 = true) ∧
    ((validate_session c4ssdown "B" 7 0).1 = false) ∧
    (triple_verify_authentication c1am c4bl c1ss c1db c1req 10).1 = none := by
  have h := fail_closed c1am c4bl c1ss c1db c1req "tok" "B" 7 10 (Or.inl rfl)
  have h2 := fail_closed c1am c4bl c4ssdown c1db c1req "tok" "B" 7 0 (Or.inl rfl)
  exact ⟨h2.1 rfl, (fail_closed c1am c1bl c4ssdown c1db c1req "tok" "B" 7 0
    (Or.inr rfl)).2.1 rfl, h.2.2⟩

/-! ## C6 — heartbeat status classification -/

/-- C6: for a session with a recorded heartbeat, the status is a function of
the elapsed time since the last heartbeat: `active` when elapsed ≤ interval,
`warning` when interval < elapsed ≤ 2×interval (still alive), and `timeout`
(not alive) when elapsed > 2×interval. -/
theorem heartbeat_status_classification (st : HeartbeatStore) (interval : Nat)
    (sid : String) (now lh : Nat) (info : SessionHeartbeatInfo)
    (hget : rget st.sessionRecords ("session:" ++ sid) now = some info)
    (hlh : info.last_heartbeat = some lh) :
    (((now : Int) - (lh : Int) ≤ (interval : Int)) →
      (check_session_heartbeat_status st interval sid now).status = "active" ∧
      (check_session_heartbeat_status st interval sid now).is_alive = true) ∧
    (((interval : Int) < (now : Int) - (lh : Int)) →
      ((now : Int) - (lh : Int) ≤ (interval : Int) * 2) →
      (check_session_heartbeat_status st interval sid now).status = "warning" ∧
      (check_session_heartbeat_status st interval sid now).is_alive = true) ∧
    (((interval : Int) * 2 < (now : Int) - (lh : Int)) →
      (check_session_heartbeat_status st interval sid now).status = "timeout" ∧
      (check_session_heartbeat_status st interval sid now).is_alive = false) := by
  unfold check_session_heartbeat_status
  rw [hget]
  dsimp only
  rw [hlh]
  dsimp only
  refine ⟨fun h1 => ?_, fun h1 h2 => ?_, fun h1 => ?_⟩
  · rw [if_pos h1]
    exact ⟨rfl, rfl⟩
  · rw [if_neg (by omega), if_pos h2]
    exact ⟨rfl, rfl⟩
  · rw [if_neg (by omega), if_neg (by omega)]
    exact ⟨rfl, rfl⟩

/-- Concrete material for the C6 witness: one heartbeat summary recorded at
time 0 under interval 300. -/
def c6info : SessionHeartbeatInfo :=
  { last_heartbeat := some 0, heartbeat_count := 5, missed_count := 0,
    status := "active" }

def c6st : HeartbeatStore :=
  { sessionRecords := [⟨"session:s", c6info, 100000⟩], counts := [("s", 5)] }

/-- C6 (witness): with interval 300 and last heartbeat at time 0 the status is
`active` at elapsed 100, `warning` at elapsed 400 and `timeout` at elapsed 700. -/
theorem heartbeat_status_classification_witness :
    (check_session_heartbeat_status c6st 300 "s" 100).status = "active" ∧
    (check_session_heartbeat_status c6st 300 "s" 400).status = "warning" ∧
    (check_session_heartbeat_status c6st 300 "s" 700).status = "timeout" := by
  refine ⟨?_, ?_, ?_⟩
  · exact ((heartbeat_status_classification c6st 300 "s" 100 0 c6info rfl rfl).1
      (by decide)).1
  · exact (((heartbeat_status_classification c6st 300 "s" 400 0 c6info rfl rfl).2.1
      (by decide)) (by decide)).1
  · exact ((heartbeat_status_classification c6st 300 "s" 700 0 c6info rfl rfl).2.2
      (by decide)).1

/-! ## C7 — missed-heartbeat threshold and reset -/

/-- One `mark_missed_heartbeat` call on a visible summary: the result compares
the incremented counter with the maximum, and the stored summary carries the
incremented counter. -/
theorem mark_missed_step (st : HeartbeatStore) (interval : Nat) (sid : String)
    (now : Nat) (info : SessionHeartbeatInfo)
    (hget : rget st.sessionRecords ("session:" ++ sid) now = some info)
    (hint : 0 < interval) :
    (mark_missed_heartbeat st interval sid now).1 =
      decide (max_missed_heartbeats ≤ info.missed_count + 1) ∧
    rget (mark_missed_heartbeat st interval sid now).2.sessionRecords
      ("session:" ++ sid) now =
      some { info with missed_count := info.missed_count + 1, status := "missed" } := by
  unfold mark_missed_heartbeat
  rw [hget]
  dsimp only
  exact ⟨rfl, rget_rsetex_self _ _ _ _ now (by omega)⟩

/-- Lemma: `record_heartbeat` stores a summary whose missed counter is zero. -/
theorem record_heartbeat_resets (st : HeartbeatStore) (interval : Nat)
    (sid : String) (now : Nat) (hint : 0 < interval) :
    rget (record_heartbeat st interval sid now).sessionRecords
      ("session:" ++ sid) now =
      some { last_heartbeat := some now, heartbeat_count := (incrHeartbeatCount st.counts sid).1,
             missed_count := 0, status := "active" } := by
  unfold record_heartbeat
  exact rget_rsetex_self _ _ _ _ now (by omega)

/-- C7: starting from a missed counter of zero, the first two `mark_missed`
calls return `false` and the third consecutive one returns `true` (default
maximum 3); a `record` call in between stores a zero counter again, so a
subsequent `mark_missed` is back to returning `false`. -/
theorem missed_heartbeat_threshold (st : HeartbeatStore) (interval : Nat)
    (sid : String) (now : Nat) (info : SessionHeartbeatInfo)
    (hget : rget st.sessionRecords ("session:" ++ sid) now = some info)
    (h0 : info.missed_count = 0)
    (hint : 0 < interval) :
    (mark_missed_heartbeat st interval sid now).1 = false ∧
    (mark_missed_heartbeat
      (mark_missed_heartbeat st interval sid now).2 interval sid now).1 = false ∧
    (mark_missed_heartbeat (mark_missed_heartbeat
      (mark_missed_heartbeat st interval sid now).2 interval sid now).2
      interval sid now).1 = true ∧
    (rget (record_heartbeat (mark_missed_heartbeat
      (mark_missed_heartbeat st interval sid now).2 interval sid now).2
      interval sid now).sessionRecords ("session:" ++ sid) now).map
      SessionHeartbeatInfo.missed_count = some 0 ∧
    (mark_missed_heartbeat (record_heartbeat (mark_missed_heartbeat
      (mark_missed_heartbeat st interval sid now).2 interval sid now).2
      interval sid now) interval sid now).1 = false := by
  have s1 := mark_missed_step st interval sid now info hget hint
  have s2 := mark_missed_step _ interval sid now _ s1.2 hint
  have s3 := mark_missed_step _ interval sid now _ s2.2 hint
  have s4 := record_heartbeat_resets
    (mark_missed_heartbeat (mark_missed_heartbeat st interval sid now).2
      interval sid now).2 interval sid now hint
  have s5 := mark_missed_step _ interval sid now _ s4 hint
  refine ⟨?_, ?_, ?_, ?_, ?_⟩
  · rw [s1.1, h0]; decide
  · rw [s2.1]; dsimp only; rw [h0]; decide
  · rw [s3.1]; dsimp only; rw [h0]; decide
  · rw [s4]; rfl
  · rw [s5.1]; dsimp only; decide

/-- C7 (witness): the threshold behaviour at the concrete store `c6st` (missed
counter 0, interval 300). -/
theorem missed_heartbeat_threshold_witness :
    (mark_missed_heartbeat c6st 300 "s" 100).1 = false ∧
    (mark_missed_heartbeat
      (mark_missed_heartbeat c6st 300 "s" 100).2 300 "s" 100).1 = false ∧
    (mark_missed_heartbeat (mark_missed_heartbeat
      (mark_missed_heartbeat c6st 300 "s" 100).2 300 "s" 100).2 300 "s" 100).1 = true := by
  have h := missed_heartbeat_threshold c6st 300 "s" 100 c6info rfl rfl (by decide)
  exact ⟨h.1, h.2.1, h.2.2.1⟩

/-! ## C8 — idempotent cleanup -/

/-- C8 (amended, blacklist part): a second `cleanup_expired_tokens` run returns
0 when no record's `expires_at` newly passed between the two runs (each record
was either already expired at the first run, or still unexpired at the second). -/
theorem cleanup_expired_tokens_idempotent (st : BlacklistStore) (t1 t2 : Nat)
    (hf : st.failing = false)
    (h12 : t1 ≤ t2)
    (hnew : ∀ e ∈ st.entries, ∀ x, e.expires_at = some x → x < t1 ∨ t2 ≤ x) :
    (cleanup_expired_tokens (cleanup_expired_tokens st t1).2 t2).1 = 0 := by
  unfold cleanup_expired_tokens
  simp only [hf, Bool.false_eq_true, if_false]
  rw [List.length_eq_zero, List.filter_eq_nil_iff]
  intro e he
  have hkept := List.mem_filter.mp he
  have hmem : e ∈ st.entries := hkept.1
  have hnot1 : entryExpiredNow t1 e = false := by
    have := hkept.2
    simp only [Bool.not_eq_eq_eq_not, Bool.not_true] at this
    exact this
  intro habs
  unfold entryExpiredNow at hnot1 habs
  rcases hx : e.expires_at with _ | x
  · rw [hx] at habs
    simp only [Bool.and_eq_true] at habs
    exact Bool.noConfusion habs.2
  · rw [hx] at hnot1 habs
    simp only [Bool.and_eq_true, decide_eq_true_eq] at habs
    simp only [Bool.and_eq_false_iff, decide_eq_false_iff_not] at hnot1
    rcases hnew e hmem x hx with hold | hfresh
    · rcases hnot1 with h1 | h1
      · exact h1 (by omega)
      · omega
    · omega

/-- Concrete material for the session-side counterexample: one live session. -/
def c8ss : SessionStore :=
  { entries := [⟨"s1", c1sdata, 100⟩], userSessions := [(7, ["s1"])],
    available := true }

/-- C8 (counterexample): `SessionManager.cleanup_expired_sessions` performs no
deletion at all — it returns the number of currently visible session keys.  It
is a pure read, so calling it twice in succession evaluates the same
expression twice: with one live session both the first and the second call
return 1, not 0 as the claim requires of the second call. -/
theorem cleanup_expired_sessions_counterexample :
    cleanup_expired_sessions c8ss 10 = 1 ∧
    cleanup_expired_sessions c8ss 10 ≠ 0 := by
  exact ⟨by rfl, by decide⟩

/-- Concrete material for the C8 witness: one blacklist record already expired
at the first run and one record that stays unexpired. -/
def c8bl : BlacklistStore :=
  { entries :=
      [{ token := "t1", blacklisted_at := 0, expires_at := some 5, reason := "r",
         keyExpireAt := 50 },
       { token := "t2", blacklisted_at := 0, expires_at := some 400, reason := "r",
         keyExpireAt := 400 }]
    hashSet := [hashToken "t1", hashToken "t2"]
    setExpireAt := 400
    failing := false }

/-- C8 (witness): on `c8bl` the first run (time 10) removes the record expired
at 5, and the second run (time 20) removes nothing. -/
theorem cleanup_expired_tokens_idempotent_witness :
    (cleanup_expired_tokens (cleanup_expired_tokens c8bl 10).2 20).1 = 0 ∧
    (cleanup_expired_tokens c8bl 10).1 = 1 := by
  refine ⟨?_, by rfl⟩
  apply cleanup_expired_tokens_idempotent c8bl 10 20 rfl (by decide)
  intro e he x hx
  fin_cases he <;> simp_all <;> omega

/-! ## C9 — touch changes only the activity time -/

/-- C9: on a live session, `update_session_activity` succeeds and changes only
the `last_activity` field of the stored document: the stored `expires_at` value
is untouched, the remaining key TTL is exactly what it was, every other session
key is untouched, and the secondary index and availability are untouched — a
touch alone never extends the session's lifetime. -/
theorem update_session_activity_frame (st : SessionStore) (sid : String)
    (now : Nat) (e : RKey SessionData)
    (hav : st.available = true)
    (hfind : rfind st.entries sid now = some e) :
    (update_session_activity st sid now).1 = true ∧
    get_session (update_session_activity st sid now).2 sid now =
      some { e.val with last_activity := now } ∧
    rttl (update_session_activity st sid now).2.entries sid now =
      rttl st.entries sid now ∧
    (∀ q, q ≠ sid → rfind (update_session_activity st sid now).2.entries q now =
      rfind st.entries q now) ∧
    (update_session_activity st sid now).2.userSessions = st.userSessions ∧
    (update_session_activity st sid now).2.available = st.available := by
  obtain ⟨hmem, hkey, hlive⟩ := rfind_spec hfind
  have hget : get_session st sid now = some e.val := by
    unfold get_session rget
    rw [hav, hfind]
    rfl
  have httl : rttl st.entries sid now = (e.expireAt : Int) - (now : Int) := by
    unfold rttl
    rw [hfind]
  have hpos : (0 : Int) < (e.expireAt : Int) - (now : Int) := by omega
  have hupd : update_session_activity st sid now =
      (true, { st with entries := rsetex st.entries sid ({ e.val with last_activity := now }) (now + ((e.expireAt : Int) - (now : Int)).toNat) }) := by
    unfold update_session_activity
    rw [hav]
    simp only [Bool.not_true, Bool.false_eq_true, if_false, hget, httl, if_pos hpos]
  have hexp : now + ((e.expireAt : Int) - (now : Int)).toNat = e.expireAt := by
    omega
  have hlive2 : now < now + ((e.expireAt : Int) - (now : Int)).toNat := by omega
  rw [hupd]
  refine ⟨rfl, ?_, ?_, ?_, rfl, rfl⟩
  · unfold get_session
    rw [hav]
    simp only [Bool.not_true, Bool.false_eq_true, if_false]
    exact rget_rsetex_self _ _ _ _ now hlive2
  · unfold rttl
    rw [rfind_rsetex_self _ _ _ _ now hlive2, hfind]
    dsimp only
    omega
  · intro q hq
    exact rfind_rsetex_other _ _ _ _ q now hq

/-- C9 (witness): touching the live session of `c8ss` at time 10 succeeds,
keeps the stored `expires_at` (100) and the remaining TTL (90), and leaves the
index untouched. -/
theorem update_session_activity_frame_witness :
    (update_session_activity c8ss "s1" 10).1 = true ∧
    (get_session (update_session_activity c8ss "s1" 10).2 "s1" 10).map
      SessionData.expires_at = some 100 ∧
    rttl (update_session_activity c8ss "s1" 10).2.entries "s1" 10 =
      rttl c8ss.entries "s1" 10 := by
  have h := update_session_activity_frame c8ss "s1" 10 ⟨"s1", c1sdata, 100⟩ rfl rfl
  exact ⟨h.1, by rw [h.2.1]; rfl, h.2.2.1⟩

end Blog
